import Mathlib

/-!
Shallow embedding of `ova_to_ami.py`, a one-shot pipeline that converts an
OVA file to an AWS AMI: bucket provisioning, IAM role provisioning, upload,
import-task initiation and status polling.

The cloud backends are modelled by client structures that carry the scripted
outcome of each API call.  Every function of the script is translated to a
Lean function returning the result of the Python function together with the list
of observable events it produces (cloud API calls, stdout prints, stderr
prints, sleeps), in order.  `sys.exit(c)` is modelled by `ProcResult.exit c`,
an exception escaping to the interpreter by `ProcResult.uncaught msg`.
-/

namespace OvaToAmi

/-- Result of running a piece of the script: normal return of a value,
`sys.exit c`, or an exception propagating uncaught out of the modelled code. -/
inductive ProcResult (α : Type) where
  | ok : α → ProcResult α
  | exit : Nat → ProcResult α
  | uncaught : String → ProcResult α
  deriving DecidableEq

/-- Process exit code of a finished run: falling off `main` yields 0,
`sys.exit c` yields `c`, an uncaught exception makes the interpreter exit 1. -/
def exitCode : ProcResult Unit → Nat
  | ProcResult.ok _ => 0
  | ProcResult.exit c => c
  | ProcResult.uncaught _ => 1

/-- Outcome of a scripted backend API call: a returned value or a raised
exception carrying a message. -/
inductive ApiResult (α : Type) where
  | ok : α → ApiResult α
  | err : String → ApiResult α
  deriving DecidableEq

/-- Outcome of `s3_client.create_bucket`: success, the
`BucketAlreadyOwnedByYou` exception, or any other exception. -/
inductive CreateBucketOutcome where
  | ok
  | alreadyOwnedByYou
  | err : String → CreateBucketOutcome
  deriving DecidableEq

/-- Outcome of `iam_client.get_role`: the role exists, the
`NoSuchEntityException`, or any other exception. -/
inductive GetRoleOutcome where
  | found
  | noSuchEntity
  | err : String → GetRoleOutcome
  deriving DecidableEq

/-- One statement of the trust policy attached at role creation. -/
structure TrustStatement where
  effect : String
  principalService : String
  action : String
  externalId : String
  deriving DecidableEq

/-- One statement of an IAM permission policy. -/
structure PolicyStatement where
  effect : String
  actions : List String
  resources : List String
  deriving DecidableEq

/-- A task record returned by `describe_import_image_tasks`; the three keys
the script reads are modelled as optional fields (a missing key raises in
Python when accessed with `[...]`). -/
structure TaskRecord where
  status : Option String
  statusMessage : Option String
  imageId : Option String
  deriving DecidableEq

/-- A cloud API call performed by the script, with the request data the
script puts into it. -/
inductive CloudCall where
  | createBucket (bucket : String) (locationConstraint : Option String)
  | getRole (roleName : String)
  | createRole (roleName : String) (trust : List TrustStatement)
  | putRolePolicy (roleName : String) (policyName : String) (policy : List PolicyStatement)
  | waitRoleExists (roleName : String)
  | uploadFile (filePath : String) (bucket : String) (key : String)
  | importImage (description : String) (format : String) (bucket : String) (key : String)
  | describeImportImageTasks (taskId : String)
  deriving DecidableEq

/-- An observable event of a run: a cloud call, a print to stdout, a print
to stderr, or a sleep of a number of seconds. -/
inductive Event where
  | call : CloudCall → Event
  | printOut : String → Event
  | printErr : String → Event
  | sleep : Nat → Event
  deriving DecidableEq

/-- The S3 client: its session region and the scripted outcomes of the two
S3 operations the script uses. -/
structure S3Client where
  region : String
  createBucketResult : CreateBucketOutcome
  uploadFileResult : ApiResult Unit
  deriving DecidableEq

/-- The IAM client: scripted outcomes of the four IAM operations the script
uses. -/
structure IAMClient where
  getRoleResult : GetRoleOutcome
  createRoleResult : ApiResult Unit
  putRolePolicyResult : ApiResult Unit
  waitRoleExistsResult : ApiResult Unit
  deriving DecidableEq

/-- The EC2 client: the scripted outcome of `import_image` and the sequence
of responses successive `describe_import_image_tasks` calls return. -/
structure EC2Client where
  importImageResult : ApiResult String
  describeResults : List (ApiResult (List TaskRecord))
  deriving DecidableEq

/-- The three boto3 clients created by `main`. -/
structure Clients where
  iam : IAMClient
  ec2 : EC2Client
  s3 : S3Client
  deriving DecidableEq

/-- The environment of a run: the filesystem (does a path exist), the
outcome of creating the boto3 clients, and the time and uuid used to build
the bucket name. -/
structure Env where
  fs : String → Bool
  clientInit : ApiResult Clients
  timestamp : Nat
  uuidStr : String

/-- Hardcoded IAM role name. -/
def IAM_ROLE_NAME : String := "vmimport"

/-- Hardcoded IAM policy name. -/
def IAM_POLICY_NAME : String := "vmimport"

/-- The trust policy built by `create_iam_role_and_policy`. -/
def trust_policy : List TrustStatement :=
  [{ effect := "Allow"
     principalService := "vmie.amazonaws.com"
     action := "sts:AssumeRole"
     externalId := "vmimport" }]

/-- The inline permission policy built by `create_iam_role_and_policy` for a
given bucket. -/
def role_policy (s3_bucket : String) : List PolicyStatement :=
  [{ effect := "Allow"
     actions := ["s3:GetBucketLocation", "s3:GetObject", "s3:ListBucket"]
     resources := ["arn:aws:s3:::" ++ s3_bucket, "arn:aws:s3:::" ++ s3_bucket ++ "/*"] },
   { effect := "Allow"
     actions := ["ec2:ModifySnapshotAttribute", "ec2:CopySnapshot", "ec2:RegisterImage",
                 "ec2:Describe*"]
     resources := ["*"] }]

/-- Translation of `create_s3_bucket`: region shapes the request, the
`BucketAlreadyOwnedByYou` exception is treated as success, any other
exception prints to stderr and exits 1. -/
def create_s3_bucket (s3_client : S3Client) (bucket_name : String) :
    ProcResult Unit × List Event :=
  let attempt := Event.printOut ("Attempting to create S3 bucket: " ++ bucket_name)
  let current_region := s3_client.region
  let req : Event :=
    if current_region = "us-east-1" then
      Event.call (CloudCall.createBucket bucket_name none)
    else
      Event.call (CloudCall.createBucket bucket_name (some current_region))
  match s3_client.createBucketResult with
  | CreateBucketOutcome.ok =>
      (ProcResult.ok (),
       [attempt, req, Event.printOut ("Successfully created S3 bucket: " ++ bucket_name)])
  | CreateBucketOutcome.alreadyOwnedByYou =>
      (ProcResult.ok (),
       [attempt, req,
        Event.printOut
          ("Bucket \x27" ++ bucket_name ++ "\x27 already exists and is owned by you. Proceeding...")])
  | CreateBucketOutcome.err e =>
      (ProcResult.exit 1,
       [attempt, req, Event.printErr ("Error creating S3 bucket: " ++ e)])

/-- Translation of `create_iam_role_and_policy`: the outer `try` catches only
`NoSuchEntityException`, so any other `get_role` exception propagates
uncaught; the inner `try` catches everything and exits 1. -/
def create_iam_role_and_policy (iam_client : IAMClient) (s3_bucket : String) :
    ProcResult Unit × List Event :=
  let checking := Event.printOut "Checking for existing IAM role..."
  let getCall := Event.call (CloudCall.getRole IAM_ROLE_NAME)
  match iam_client.getRoleResult with
  | GetRoleOutcome.found =>
      (ProcResult.ok (),
       [checking, getCall,
        Event.printOut ("IAM role \x27" ++ IAM_ROLE_NAME ++ "\x27 already exists. Skipping creation.")])
  | GetRoleOutcome.err e =>
      (ProcResult.uncaught e, [checking, getCall])
  | GetRoleOutcome.noSuchEntity =>
      let pre := [checking, getCall,
        Event.printOut ("IAM role \x27" ++ IAM_ROLE_NAME ++ "\x27 not found. Creating...")]
      let createCall := Event.call (CloudCall.createRole IAM_ROLE_NAME trust_policy)
      match iam_client.createRoleResult with
      | ApiResult.err e =>
          (ProcResult.exit 1,
           pre ++ [createCall, Event.printErr ("Error creating IAM role or policy: " ++ e)])
      | ApiResult.ok () =>
          let afterCreate := pre ++ [createCall, Event.printOut "IAM role created successfully."]
          let putCall :=
            Event.call (CloudCall.putRolePolicy IAM_ROLE_NAME IAM_POLICY_NAME (role_policy s3_bucket))
          match iam_client.putRolePolicyResult with
          | ApiResult.err e =>
              (ProcResult.exit 1,
               afterCreate ++ [putCall, Event.printErr ("Error creating IAM role or policy: " ++ e)])
          | ApiResult.ok () =>
              let afterPut := afterCreate ++
                [putCall, Event.printOut "IAM role policy attached successfully.",
                 Event.printOut "Waiting for IAM role to propagate..."]
              let waitCall := Event.call (CloudCall.waitRoleExists IAM_ROLE_NAME)
              match iam_client.waitRoleExistsResult with
              | ApiResult.err e =>
                  (ProcResult.exit 1,
                   afterPut ++ [waitCall, Event.printErr ("Error creating IAM role or policy: " ++ e)])
              | ApiResult.ok () =>
                  (ProcResult.ok (),
                   afterPut ++ [waitCall, Event.printOut "IAM role is now available."])

/-- Translation of `os.path.basename` for slash-separated paths. -/
def basename (p : String) : String :=
  (p.splitOn "/").getLastD ""

/-- Translation of `upload_ova_to_s3`: uploads under the base name of the file
and returns that key; any exception prints to stderr and exits 1. -/
def upload_ova_to_s3 (s3_client : S3Client) (bucket_name file_path : String) :
    ProcResult String × List Event :=
  let file_name := basename file_path
  let pre := [Event.printOut
    ("Uploading \x27" ++ file_name ++ "\x27 to S3 bucket \x27" ++ bucket_name ++ "\x27...")]
  let upCall := Event.call (CloudCall.uploadFile file_path bucket_name file_name)
  match s3_client.uploadFileResult with
  | ApiResult.ok () =>
      (ProcResult.ok file_name,
       pre ++ [upCall, Event.printOut ("Successfully uploaded \x27" ++ file_name ++ "\x27 to S3.")])
  | ApiResult.err e =>
      (ProcResult.exit 1,
       pre ++ [upCall, Event.printErr ("Error uploading file to S3: " ++ e)])

/-- Translation of `import_image`: submits a single OVA disk container and
returns the task id; any exception prints to stderr and exits 1. -/
def import_image (ec2_client : EC2Client) (s3_bucket ova_key description : String) :
    ProcResult String × List Event :=
  let pre := [Event.printOut "Initiating VM import task..."]
  let impCall := Event.call (CloudCall.importImage description "ova" s3_bucket ova_key)
  match ec2_client.importImageResult with
  | ApiResult.ok task_id =>
      (ProcResult.ok task_id,
       pre ++ [impCall, Event.printOut ("Import task started. Task ID: " ++ task_id)])
  | ApiResult.err e =>
      (ProcResult.exit 1,
       pre ++ [impCall, Event.printErr ("Error initiating import task: " ++ e)])

/-- The three terminal statuses of the monitor loop. -/
def terminalStatuses : List String := ["completed", "deleted", "cancelled"]

/-- Result of the monitor loop over a finite script of responses: either the
loop body finished (returning a task record, exiting, or raising), or the
scripted responses ran out with the loop still polling. -/
inductive MonitorResult where
  | done : ProcResult TaskRecord → MonitorResult
  | outOfResponses : MonitorResult
  deriving DecidableEq

/-- The body of the `while True` loop of `monitor_import_task`, run against a
finite script of describe responses.  Each iteration queries once; the `try`
catches every exception of the iteration (query error, missing task, missing
`Status` key) and exits 1; a terminal status returns the task; otherwise the
loop sleeps 30 seconds and recurses. -/
def monitorLoop (task_id : String) :
    List (ApiResult (List TaskRecord)) → MonitorResult × List Event
  | [] => (MonitorResult.outOfResponses, [])
  | resp :: rest =>
    let qCall := Event.call (CloudCall.describeImportImageTasks task_id)
    match resp with
    | ApiResult.err e =>
        (MonitorResult.done (ProcResult.exit 1),
         [qCall, Event.printErr ("Error monitoring import task: " ++ e)])
    | ApiResult.ok tasks =>
      match tasks with
      | [] =>
          (MonitorResult.done (ProcResult.exit 1),
           [qCall, Event.printErr "Error monitoring import task: list index out of range"])
      | task :: _ =>
        match task.status with
        | none =>
            (MonitorResult.done (ProcResult.exit 1),
             [qCall, Event.printErr "Error monitoring import task: \x27Status\x27"])
        | some status =>
          let status_message := task.statusMessage.getD "No message"
          let statusEv := Event.printOut ("Current status: " ++ status ++ " - " ++ status_message)
          if status ∈ terminalStatuses then
            (MonitorResult.done (ProcResult.ok task), [qCall, statusEv])
          else
            let next := monitorLoop task_id rest
            (next.1, qCall :: statusEv :: Event.sleep 30 :: next.2)

/-- Translation of `monitor_import_task`: the initial print followed by the
poll loop. -/
def monitor_import_task (ec2_client : EC2Client) (task_id : String) :
    MonitorResult × List Event :=
  let l := monitorLoop task_id ec2_client.describeResults
  (l.1, Event.printOut "Monitoring import task status..." :: l.2)

/-- Result of a whole run: the process finished (normally, by `sys.exit`, or
by an uncaught exception), or the poll loop was still running when the
scripted responses ran out. -/
inductive RunResult where
  | finished : ProcResult Unit → RunResult
  | stillPolling : RunResult
  deriving DecidableEq

/-- Exit code of a whole run, when it finished. -/
def runExitCode : RunResult → Option Nat
  | RunResult.finished r => some (exitCode r)
  | RunResult.stillPolling => none

/-- Sequencing of the pipeline stages in `main`: a stage that exits or
raises short-circuits the rest of the run. -/
def rstep {α : Type} (r : ProcResult α × List Event) (f : α → RunResult × List Event) :
    RunResult × List Event :=
  match r.1 with
  | ProcResult.ok a => ((f a).1, r.2 ++ (f a).2)
  | ProcResult.exit c => (RunResult.finished (ProcResult.exit c), r.2)
  | ProcResult.uncaught e => (RunResult.finished (ProcResult.uncaught e), r.2)

/-- Translation of the tail of `main` (steps 5 and after): monitor the task,
then on `completed` read `ImageId` (an absent key raises an uncaught
`KeyError`), otherwise print the failure report to stdout and return
normally. -/
def finishRun (ec2_client : EC2Client) (import_task_id : String) :
    RunResult × List Event :=
  let m := monitor_import_task ec2_client import_task_id
  match m.1 with
  | MonitorResult.outOfResponses => (RunResult.stillPolling, m.2)
  | MonitorResult.done (ProcResult.exit c) => (RunResult.finished (ProcResult.exit c), m.2)
  | MonitorResult.done (ProcResult.uncaught e) => (RunResult.finished (ProcResult.uncaught e), m.2)
  | MonitorResult.done (ProcResult.ok final_task_status) =>
    match final_task_status.status with
    | none => (RunResult.finished (ProcResult.uncaught "KeyError: \x27Status\x27"), m.2)
    | some st =>
      if st = "completed" then
        match final_task_status.imageId with
        | none => (RunResult.finished (ProcResult.uncaught "KeyError: \x27ImageId\x27"), m.2)
        | some ami_id =>
            (RunResult.finished (ProcResult.ok ()),
             m.2 ++
              [Event.printOut "\n--- Conversion Complete ---",
               Event.printOut "The OVA file has been successfully converted to an AMI.",
               Event.printOut ("Final AMI Location (ID): " ++ ami_id)])
      else
        (RunResult.finished (ProcResult.ok ()),
         m.2 ++
          [Event.printOut "\n--- Conversion Failed ---",
           Event.printOut "The import task did not complete successfully.",
           Event.printOut ("Final Status: " ++ st),
           Event.printOut ("Status Message: " ++ final_task_status.statusMessage.getD "N/A")])

/-- Steps 1 to 5 of `main`: bucket creation, role creation, upload, import
submission and monitoring, each sequenced on the success of the previous. -/
def runPipeline (clients : Clients) (bucket_name ova_file_path ami_description : String) :
    RunResult × List Event :=
  rstep (create_s3_bucket clients.s3 bucket_name) (fun _ =>
    rstep (create_iam_role_and_policy clients.iam bucket_name) (fun _ =>
      rstep (upload_ova_to_s3 clients.s3 bucket_name ova_file_path) (fun ova_s3_key =>
        rstep (import_image clients.ec2 bucket_name ova_s3_key ami_description)
          (fun import_task_id => finishRun clients.ec2 import_task_id))))

/-- Translation of `main`: existence check on the input path, client
creation, bucket-name generation, then the five pipeline stages in order. -/
def main (env : Env) (ova_file_path : String) : RunResult × List Event :=
  let start := Event.printOut "Starting OVA to AMI conversion script..."
  if env.fs ova_file_path then
    match env.clientInit with
    | ApiResult.err e =>
        (RunResult.finished (ProcResult.exit 1),
         [start,
          Event.printErr
            ("Error initializing AWS clients. Ensure Boto3 is installed and your AWS credentials are configured. Details: " ++ e)])
    | ApiResult.ok clients =>
      let bucket_name :=
        "ova-ami-import-" ++ toString env.timestamp ++ "-" ++ env.uuidStr.take 8
      let ami_description := "AMI created from " ++ basename ova_file_path
      let r := runPipeline clients bucket_name ova_file_path ami_description
      (r.1, start :: r.2)
  else
    (RunResult.finished (ProcResult.exit 1),
     [start, Event.printErr ("Error: OVA file not found at \x27" ++ ova_file_path ++ "\x27")])

/-- Whether an event is a cloud API call. -/
def isCloudCall : Event → Bool
  | Event.call _ => true
  | _ => false

/-- Number of status queries in an event list. -/
def describeCount (ev : List Event) : Nat :=
  ev.countP (fun e =>
    match e with
    | Event.call (CloudCall.describeImportImageTasks _) => true
    | _ => false)

/-- Number of sleeps in an event list. -/
def sleepCount (ev : List Event) : Nat :=
  ev.countP (fun e =>
    match e with
    | Event.sleep _ => true
    | _ => false)

/-- Whether a describe response makes the loop body take the non-terminal
branch: a task list whose first task has a status outside the terminal set. -/
def respNonTerminal : ApiResult (List TaskRecord) → Bool
  | ApiResult.ok (t :: _) =>
      match t.status with
      | some st => decide (st ∉ terminalStatuses)
      | none => false
  | _ => false

/-- Whether an event is a print to the error stream. -/
def isPrintErr : Event → Bool
  | Event.printErr _ => true
  | _ => false

/-- An event list that ends with a diagnostic on the error stream. -/
def endsWithPrintErr (ev : List Event) : Prop :=
  ∃ l s, ev = l ++ [Event.printErr s]

/-- The status line the loop body prints for a well-formed describe
response (used to state what a non-terminal iteration appends). -/
def statusLine : ApiResult (List TaskRecord) → String
  | ApiResult.ok (t :: _) =>
      match t.status with
      | some st => "Current status: " ++ st ++ " - " ++ t.statusMessage.getD "No message"
      | none => ""
  | _ => ""

/-- A run in which every stage before the monitor succeeds: the input file
exists, client creation succeeds, the bucket is created, the role is found,
the upload succeeds, and the import starts with id `tid`. -/
def happyUntilMonitor (env : Env) (p : String) (cl : Clients) (tid : String) : Prop :=
  env.fs p = true ∧ env.clientInit = ApiResult.ok cl ∧
  cl.s3.createBucketResult = CreateBucketOutcome.ok ∧
  cl.iam.getRoleResult = GetRoleOutcome.found ∧
  cl.s3.uploadFileResult = ApiResult.ok () ∧
  cl.ec2.importImageResult = ApiResult.ok tid

/-- An S3 client in the default region whose calls all succeed. -/
def happyS3 : S3Client :=
  { region := "us-east-1", createBucketResult := CreateBucketOutcome.ok,
    uploadFileResult := ApiResult.ok () }

/-- An S3 client whose bucket creation reports `BucketAlreadyOwnedByYou`. -/
def ownedS3 : S3Client :=
  { happyS3 with createBucketResult := CreateBucketOutcome.alreadyOwnedByYou }

/-- An IAM client for which the `vmimport` role already exists. -/
def happyIAM : IAMClient :=
  { getRoleResult := GetRoleOutcome.found, createRoleResult := ApiResult.ok (),
    putRolePolicyResult := ApiResult.ok (), waitRoleExistsResult := ApiResult.ok () }

/-- An IAM client whose role-existence check raises an access-denied error. -/
def deniedIAM : IAMClient :=
  { happyIAM with getRoleResult := GetRoleOutcome.err "AccessDenied" }

/-- An EC2 client that starts the import and then answers status queries
with the given scripted responses. -/
def happyEC2 (descr : List (ApiResult (List TaskRecord))) : EC2Client :=
  { importImageResult := ApiResult.ok "import-ami-0a1b2c3d", describeResults := descr }

/-- An environment in which everything up to the monitor succeeds and the
status queries answer with the given responses. -/
def mkEnv (descr : List (ApiResult (List TaskRecord))) : Env :=
  { fs := fun _ => true, clientInit := ApiResult.ok ⟨happyIAM, happyEC2 descr, happyS3⟩,
    timestamp := 1700000000, uuidStr := "abcd1234-ef56" }

/-- An environment in which the input file does not exist. -/
def noFileEnv : Env :=
  { mkEnv [] with fs := fun _ => false }

/-- An environment in which the backend reports the import task `cancelled`
with message `User cancelled` on the first status query. -/
def cancelledEnv : Env :=
  mkEnv [ApiResult.ok [{ status := some "cancelled", statusMessage := some "User cancelled",
                         imageId := none }]]

/-- An environment in which the role-existence check raises an
access-denied error. -/
def getRoleErrEnv : Env :=
  { mkEnv [] with clientInit := ApiResult.ok ⟨deniedIAM, happyEC2 [], happyS3⟩ }

/-- An environment in which the import task completes but its task record
carries no `ImageId` field. -/
def completedNoImageEnv : Env :=
  mkEnv [ApiResult.ok [{ status := some "completed", statusMessage := none, imageId := none }]]

/-- An environment in which bucket creation reports the bucket as already
owned by the caller. -/
def ownedBucketEnv : Env :=
  { mkEnv [] with clientInit := ApiResult.ok ⟨happyIAM, happyEC2 [], ownedS3⟩ }

/-! ## Helper lemmas -/

theorem endsWithPrintErr_cons (a : Event) {ev : List Event} (h : endsWithPrintErr ev) :
    endsWithPrintErr (a :: ev) := by
  obtain ⟨l, s, rfl⟩ := h
  exact ⟨a :: l, s, rfl⟩

theorem endsWithPrintErr_append (l : List Event) {ev : List Event} (h : endsWithPrintErr ev) :
    endsWithPrintErr (l ++ ev) := by
  obtain ⟨l2, s, rfl⟩ := h
  exact ⟨l ++ l2, s, by simp⟩

theorem endsWithPrintErr_single (s : String) : endsWithPrintErr [Event.printErr s] :=
  ⟨[], s, rfl⟩

theorem rstep_eq_of_ok {α : Type} {r : ProcResult α × List Event}
    {f : α → RunResult × List Event} {a : α} (h : r.1 = ProcResult.ok a) :
    rstep r f = ((f a).1, r.2 ++ (f a).2) := by
  simp [rstep, h]

theorem rstep_eq_of_exit {α : Type} {r : ProcResult α × List Event}
    {f : α → RunResult × List Event} {c : Nat} (h : r.1 = ProcResult.exit c) :
    rstep r f = (RunResult.finished (ProcResult.exit c), r.2) := by
  simp [rstep, h]

theorem rstep_eq_of_uncaught {α : Type} {r : ProcResult α × List Event}
    {f : α → RunResult × List Event} {m : String} (h : r.1 = ProcResult.uncaught m) :
    rstep r f = (RunResult.finished (ProcResult.uncaught m), r.2) := by
  simp [rstep, h]

/-! ## Claim theorems -/

/-- Claim C3: for every input file path that does not exist on disk, the run
terminates with a non-zero exit (code 1) before any cloud call is attempted:
the event trace contains no cloud API call at all. -/
theorem missing_file_no_cloud_calls (env : Env) (p : String) (h : env.fs p = false) :
    (main env p).1 = RunResult.finished (ProcResult.exit 1) ∧
    ∀ e ∈ (main env p).2, isCloudCall e = false := by
  constructor
  · simp [main, h]
  · intro e he
    simp [main, h] at he
    rcases he with h1 | h1 <;> subst h1 <;> rfl

/-- Witness for C3 at a concrete environment whose filesystem is empty. -/
theorem missing_file_no_cloud_calls_w :
    (main noFileEnv "vm.ova").1 = RunResult.finished (ProcResult.exit 1) ∧
    ∀ e ∈ (main noFileEnv "vm.ova").2, isCloudCall e = false :=
  missing_file_no_cloud_calls noFileEnv "vm.ova" rfl

/-- Claim C7: whenever the role-existence check reports that the `vmimport`
role already exists, the provisioner succeeds without any role-creation or
policy-attachment call in its trace. -/
theorem existing_role_skips_creation (iam : IAMClient) (b : String)
    (h : iam.getRoleResult = GetRoleOutcome.found) :
    (create_iam_role_and_policy iam b).1 = ProcResult.ok () ∧
    ∀ e ∈ (create_iam_role_and_policy iam b).2,
      (∀ r tp, e ≠ Event.call (CloudCall.createRole r tp)) ∧
      (∀ r pn pol, e ≠ Event.call (CloudCall.putRolePolicy r pn pol)) := by
  constructor
  · simp [create_iam_role_and_policy, h]
  · intro e he
    simp [create_iam_role_and_policy, h] at he
    rcases he with h1 | h1 | h1 <;> subst h1 <;> exact ⟨fun r tp => by simp, fun r pn pol => by simp⟩

/-- Witness for C7 at a concrete IAM client that reports the role present. -/
theorem existing_role_skips_creation_w :
    (create_iam_role_and_policy happyIAM "ova-bucket").1 = ProcResult.ok () ∧
    ∀ e ∈ (create_iam_role_and_policy happyIAM "ova-bucket").2,
      (∀ r tp, e ≠ Event.call (CloudCall.createRole r tp)) ∧
      (∀ r pn pol, e ≠ Event.call (CloudCall.putRolePolicy r pn pol)) :=
  existing_role_skips_creation happyIAM "ova-bucket" rfl

/-- Claim C9: the bucket-create request carries a location constraint iff
the session region differs from `us-east-1`; in the default region the
request has no constraint, in any other region it carries that region. -/
theorem bucket_location_constraint_iff (s3 : S3Client) (b : String) :
    (s3.region = "us-east-1" →
       Event.call (CloudCall.createBucket b none) ∈ (create_s3_bucket s3 b).2 ∧
       ∀ r, Event.call (CloudCall.createBucket b (some r)) ∉ (create_s3_bucket s3 b).2) ∧
    (s3.region ≠ "us-east-1" →
       Event.call (CloudCall.createBucket b (some s3.region)) ∈ (create_s3_bucket s3 b).2 ∧
       Event.call (CloudCall.createBucket b none) ∉ (create_s3_bucket s3 b).2) := by
  constructor
  · intro h
    cases hc : s3.createBucketResult <;> simp [create_s3_bucket, h, hc]
  · intro h
    cases hc : s3.createBucketResult <;> simp [create_s3_bucket, h, hc]

/-- Witness for C9 at a default-region client and a non-default-region
client. -/
theorem bucket_location_constraint_iff_w :
    (Event.call (CloudCall.createBucket "b" none) ∈ (create_s3_bucket happyS3 "b").2 ∧
     ∀ r, Event.call (CloudCall.createBucket "b" (some r)) ∉ (create_s3_bucket happyS3 "b").2) ∧
    (Event.call (CloudCall.createBucket "b" (some "eu-west-1")) ∈
       (create_s3_bucket { happyS3 with region := "eu-west-1" } "b").2 ∧
     Event.call (CloudCall.createBucket "b" none) ∉
       (create_s3_bucket { happyS3 with region := "eu-west-1" } "b").2) :=
  ⟨(bucket_location_constraint_iff happyS3 "b").1 rfl,
   (bucket_location_constraint_iff { happyS3 with region := "eu-west-1" } "b").2 (by decide)⟩

/-- Claim C6: bucket creation is idempotent.  A creation reported as
`BucketAlreadyOwnedByYou` is treated as success just like a fresh creation,
so a second run with the same name and owner succeeds too; any other
creation failure exits with the non-zero code 1; and with an already-owned
bucket the pipeline continues to the role stage. -/
theorem bucket_creation_idempotent (s3a s3b : S3Client) (b : String)
    (ha : s3a.createBucketResult = CreateBucketOutcome.ok)
    (hb : s3b.createBucketResult = CreateBucketOutcome.alreadyOwnedByYou) :
    (create_s3_bucket s3a b).1 = ProcResult.ok () ∧
    (create_s3_bucket s3b b).1 = ProcResult.ok () ∧
    (∀ (s3c : S3Client) (m : String), s3c.createBucketResult = CreateBucketOutcome.err m →
       (create_s3_bucket s3c b).1 = ProcResult.exit 1) ∧
    (∀ (env : Env) (p : String) (cl : Clients),
       env.fs p = true → env.clientInit = ApiResult.ok cl →
       cl.s3.createBucketResult = CreateBucketOutcome.alreadyOwnedByYou →
       Event.call (CloudCall.getRole IAM_ROLE_NAME) ∈ (main env p).2) := by
  refine ⟨by simp [create_s3_bucket, ha], by simp [create_s3_bucket, hb],
    fun s3c m hm => by simp [create_s3_bucket, hm], ?_⟩
  intro env p cl hfs hci hown
  have h1 : (create_s3_bucket cl.s3
      ("ova-ami-import-" ++ toString env.timestamp ++ "-" ++ env.uuidStr.take 8)).1 =
      ProcResult.ok () := by
    simp [create_s3_bucket, hown]
  have hrole : Event.call (CloudCall.getRole IAM_ROLE_NAME) ∈
      (create_iam_role_and_policy cl.iam
        ("ova-ami-import-" ++ toString env.timestamp ++ "-" ++ env.uuidStr.take 8)).2 := by
    cases hg : cl.iam.getRoleResult
    case found => simp [create_iam_role_and_policy, hg]
    case err e => simp [create_iam_role_and_policy, hg]
    case noSuchEntity =>
      cases hcr : cl.iam.createRoleResult <;>
        cases hp : cl.iam.putRolePolicyResult <;>
          cases hw : cl.iam.waitRoleExistsResult <;>
            simp [create_iam_role_and_policy, hg, hcr, hp, hw]
  simp only [main, hfs, if_true, hci, runPipeline]
  rw [rstep_eq_of_ok h1]
  simp only [List.mem_cons, List.mem_append]
  right
  right
  cases h2 : (create_iam_role_and_policy cl.iam
      ("ova-ami-import-" ++ toString env.timestamp ++ "-" ++ env.uuidStr.take 8)).1
  case ok a =>
    rw [rstep_eq_of_ok h2]
    exact List.mem_append_left _ hrole
  case exit c =>
    rw [rstep_eq_of_exit h2]
    exact hrole
  case uncaught m =>
    rw [rstep_eq_of_uncaught h2]
    exact hrole

/-- Witness for C6 at concrete clients: fresh creation, already-owned
creation, a failing creation, and the already-owned pipeline continuing. -/
theorem bucket_creation_idempotent_w :
    (create_s3_bucket happyS3 "b").1 = ProcResult.ok () ∧
    (create_s3_bucket ownedS3 "b").1 = ProcResult.ok () ∧
    (∀ (s3c : S3Client) (m : String), s3c.createBucketResult = CreateBucketOutcome.err m →
       (create_s3_bucket s3c "b").1 = ProcResult.exit 1) ∧
    (∀ (env : Env) (p : String) (cl : Clients),
       env.fs p = true → env.clientInit = ApiResult.ok cl →
       cl.s3.createBucketResult = CreateBucketOutcome.alreadyOwnedByYou →
       Event.call (CloudCall.getRole IAM_ROLE_NAME) ∈ (main env p).2) :=
  bucket_creation_idempotent happyS3 ownedS3 "b" rfl rfl

/-- Claim C8: any statement of the permission policy that grants one of the
storage-read actions has as resources exactly the provisioned bucket and its
contents, and no wildcard resource. -/
theorem role_policy_bucket_scoped (b : String) (stmt : PolicyStatement) (a : String)
    (hs : stmt ∈ role_policy b)
    (ha : a ∈ ["s3:GetBucketLocation", "s3:GetObject", "s3:ListBucket"])
    (hact : a ∈ stmt.actions) :
    stmt.resources = ["arn:aws:s3:::" ++ b, "arn:aws:s3:::" ++ b ++ "/*"] ∧
    "*" ∉ stmt.resources := by
  simp only [role_policy, List.mem_cons, List.not_mem_nil, or_false] at hs
  rcases hs with h | h
  · subst h
    refine ⟨rfl, ?_⟩
    intro hmem
    simp only [List.mem_cons, List.not_mem_nil, or_false] at hmem
    rcases hmem with h1 | h1
    · have hl := congrArg String.length h1
      simp only [String.length_append] at hl
      rw [show ("*").length = 1 from rfl, show ("arn:aws:s3:::").length = 13 from rfl] at hl
      omega
    · have hl := congrArg String.length h1
      simp only [String.length_append] at hl
      rw [show ("*").length = 1 from rfl, show ("arn:aws:s3:::").length = 13 from rfl,
        show ("/*").length = 2 from rfl] at hl
      omega
  · subst h
    simp only [List.mem_cons, List.not_mem_nil, or_false] at ha hact
    rcases ha with rfl | rfl | rfl <;> rcases hact with h2 | h2 | h2 | h2 <;> simp at h2

/-- Witness for C8 at a concrete bucket, the storage-read statement and the
`s3:GetObject` action. -/
theorem role_policy_bucket_scoped_w :
    ({ effect := "Allow"
       actions := ["s3:GetBucketLocation", "s3:GetObject", "s3:ListBucket"]
       resources := ["arn:aws:s3:::" ++ "mybucket", "arn:aws:s3:::" ++ "mybucket" ++ "/*"]
       : PolicyStatement }).resources =
      ["arn:aws:s3:::" ++ "mybucket", "arn:aws:s3:::" ++ "mybucket" ++ "/*"] ∧
    "*" ∉ ({ effect := "Allow"
             actions := ["s3:GetBucketLocation", "s3:GetObject", "s3:ListBucket"]
             resources := ["arn:aws:s3:::" ++ "mybucket", "arn:aws:s3:::" ++ "mybucket" ++ "/*"]
             : PolicyStatement }).resources :=
  role_policy_bucket_scoped "mybucket" _ "s3:GetObject"
    (by simp [role_policy]) (by simp) (by simp)

/-- A non-terminal describe response makes the loop body perform one query,
print the status line, sleep 30 seconds and recurse on the remaining
responses. -/
theorem monitorLoop_cons_nonterm (tid : String) (r : ApiResult (List TaskRecord))
    (rest : List (ApiResult (List TaskRecord))) (h : respNonTerminal r = true) :
    monitorLoop tid (r :: rest) =
      ((monitorLoop tid rest).1,
       Event.call (CloudCall.describeImportImageTasks tid) :: Event.printOut (statusLine r) ::
         Event.sleep 30 :: (monitorLoop tid rest).2) := by
  cases r with
  | err e => simp [respNonTerminal] at h
  | ok tasks =>
    cases tasks with
    | nil => simp [respNonTerminal] at h
    | cons t ts =>
      cases hst : t.status with
      | none => simp [respNonTerminal, hst] at h
      | some st =>
        simp only [respNonTerminal, hst, decide_eq_true_eq] at h
        simp [monitorLoop, statusLine, hst, h]

/-- Claim C4: after any number of non-terminal responses, the monitor loop
returns the full task record of the first terminal response, having queried
once per response and slept (always 30 units) only between queries, and its
behaviour does not depend on anything scripted after that terminal response;
on an all-non-terminal script it consumes every response, querying and
sleeping each time, so no iteration bound exists. -/
theorem monitor_terminal_and_polling :
    (∀ (tid : String) (pre tail : List (ApiResult (List TaskRecord)))
        (t : TaskRecord) (ts : List TaskRecord) (st : String),
        (∀ r ∈ pre, respNonTerminal r = true) →
        t.status = some st → st ∈ terminalStatuses →
        (monitorLoop tid (pre ++ ApiResult.ok (t :: ts) :: tail)).1 =
          MonitorResult.done (ProcResult.ok t) ∧
        monitorLoop tid (pre ++ ApiResult.ok (t :: ts) :: tail) =
          monitorLoop tid (pre ++ [ApiResult.ok (t :: ts)]) ∧
        describeCount (monitorLoop tid (pre ++ ApiResult.ok (t :: ts) :: tail)).2 =
          pre.length + 1 ∧
        sleepCount (monitorLoop tid (pre ++ ApiResult.ok (t :: ts) :: tail)).2 = pre.length ∧
        (∀ n, Event.sleep n ∈ (monitorLoop tid (pre ++ ApiResult.ok (t :: ts) :: tail)).2 →
          n = 30)) ∧
    (∀ (tid : String) (pre : List (ApiResult (List TaskRecord))),
        (∀ r ∈ pre, respNonTerminal r = true) →
        (monitorLoop tid pre).1 = MonitorResult.outOfResponses ∧
        describeCount (monitorLoop tid pre).2 = pre.length ∧
        sleepCount (monitorLoop tid pre).2 = pre.length) := by
  constructor
  · intro tid pre tail t ts st hpre hst hterm
    induction pre with
    | nil =>
      refine ⟨by simp [monitorLoop, hst, hterm], by simp [monitorLoop, hst, hterm], ?_, ?_, ?_⟩
      · simp [monitorLoop, hst, hterm, describeCount]
      · simp [monitorLoop, hst, hterm, sleepCount]
      · intro n hn
        simp [monitorLoop, hst, hterm] at hn
    | cons r rest ih =>
      have hr : respNonTerminal r = true := hpre r (by simp)
      have hrest : ∀ x ∈ rest, respNonTerminal x = true := fun x hx => hpre x (by simp [hx])
      obtain ⟨ih1, ih2, ih3, ih4, ih5⟩ := ih hrest
      have h1 := monitorLoop_cons_nonterm tid r (rest ++ ApiResult.ok (t :: ts) :: tail) hr
      have h2 := monitorLoop_cons_nonterm tid r (rest ++ [ApiResult.ok (t :: ts)]) hr
      rw [List.cons_append, h1]
      refine ⟨ih1, ?_, ?_, ?_, ?_⟩
      · rw [List.cons_append, h2, ih2]
      · simp [describeCount, List.countP_cons] at ih3 ⊢
        omega
      · simp [sleepCount, List.countP_cons] at ih4 ⊢
        omega
      · intro n hn
        simp only [List.mem_cons] at hn
        rcases hn with h | h | h | h
        · exact absurd h (by simp)
        · exact absurd h (by simp)
        · exact Event.sleep.inj h
        · exact ih5 n h
  · intro tid pre hpre
    induction pre with
    | nil => exact ⟨rfl, rfl, rfl⟩
    | cons r rest ih =>
      have hr : respNonTerminal r = true := hpre r (by simp)
      have hrest : ∀ x ∈ rest, respNonTerminal x = true := fun x hx => hpre x (by simp [hx])
      obtain ⟨ih1, ih2, ih3⟩ := ih hrest
      rw [monitorLoop_cons_nonterm tid r rest hr]
      refine ⟨ih1, ?_, ?_⟩
      · simp [describeCount, List.countP_cons] at ih2 ⊢
        omega
      · simp [sleepCount, List.countP_cons] at ih3 ⊢
        omega

/-- Witness for C4: one non-terminal response followed by a `completed`
response and an ignored trailing response, and a purely non-terminal
two-response script. -/
theorem monitor_terminal_and_polling_w :
    ((monitorLoop "t1"
        ([ApiResult.ok [{ status := some "active", statusMessage := none, imageId := none }]] ++
          ApiResult.ok
            [{ status := some "completed", statusMessage := some "done",
               imageId := some "ami-1" }] :: [ApiResult.err "late"])).1 =
      MonitorResult.done (ProcResult.ok
        { status := some "completed", statusMessage := some "done", imageId := some "ami-1" }) ∧
     monitorLoop "t1"
        ([ApiResult.ok [{ status := some "active", statusMessage := none, imageId := none }]] ++
          ApiResult.ok
            [{ status := some "completed", statusMessage := some "done",
               imageId := some "ami-1" }] :: [ApiResult.err "late"]) =
      monitorLoop "t1"
        ([ApiResult.ok [{ status := some "active", statusMessage := none, imageId := none }]] ++
          [ApiResult.ok
            [{ status := some "completed", statusMessage := some "done",
               imageId := some "ami-1" }]]) ∧
     describeCount (monitorLoop "t1"
        ([ApiResult.ok [{ status := some "active", statusMessage := none, imageId := none }]] ++
          ApiResult.ok
            [{ status := some "completed", statusMessage := some "done",
               imageId := some "ami-1" }] :: [ApiResult.err "late"])).2 =
      [ApiResult.ok (α := List TaskRecord)
        [{ status := some "active", statusMessage := none, imageId := none }]].length + 1 ∧
     sleepCount (monitorLoop "t1"
        ([ApiResult.ok [{ status := some "active", statusMessage := none, imageId := none }]] ++
          ApiResult.ok
            [{ status := some "completed", statusMessage := some "done",
               imageId := some "ami-1" }] :: [ApiResult.err "late"])).2 =
      [ApiResult.ok (α := List TaskRecord)
        [{ status := some "active", statusMessage := none, imageId := none }]].length ∧
     (∀ n, Event.sleep n ∈ (monitorLoop "t1"
        ([ApiResult.ok [{ status := some "active", statusMessage := none, imageId := none }]] ++
          ApiResult.ok
            [{ status := some "completed", statusMessage := some "done",
               imageId := some "ami-1" }] :: [ApiResult.err "late"])).2 → n = 30)) ∧
    ((monitorLoop "t1"
        [ApiResult.ok [{ status := some "active", statusMessage := none, imageId := none }],
         ApiResult.ok [{ status := some "converting", statusMessage := some "30%",
                         imageId := none }]]).1 = MonitorResult.outOfResponses ∧
     describeCount (monitorLoop "t1"
        [ApiResult.ok [{ status := some "active", statusMessage := none, imageId := none }],
         ApiResult.ok [{ status := some "converting", statusMessage := some "30%",
                         imageId := none }]]).2 =
      [ApiResult.ok (α := List TaskRecord)
        [{ status := some "active", statusMessage := none, imageId := none }],
       ApiResult.ok [{ status := some "converting", statusMessage := some "30%",
                       imageId := none }]].length ∧
     sleepCount (monitorLoop "t1"
        [ApiResult.ok [{ status := some "active", statusMessage := none, imageId := none }],
         ApiResult.ok [{ status := some "converting", statusMessage := some "30%",
                         imageId := none }]]).2 =
      [ApiResult.ok (α := List TaskRecord)
        [{ status := some "active", statusMessage := none, imageId := none }],
       ApiResult.ok [{ status := some "converting", statusMessage := some "30%",
                       imageId := none }]].length) :=
  ⟨monitor_terminal_and_polling.1 "t1"
      [ApiResult.ok [{ status := some "active", statusMessage := none, imageId := none }]]
      [ApiResult.err "late"]
      { status := some "completed", statusMessage := some "done", imageId := some "ami-1" }
      [] "completed" (by decide) rfl (by decide),
   monitor_terminal_and_polling.2 "t1"
      [ApiResult.ok [{ status := some "active", statusMessage := none, imageId := none }],
       ApiResult.ok [{ status := some "converting", statusMessage := some "30%",
                       imageId := none }]] (by decide)⟩

theorem create_s3_bucket_inv (s3 : S3Client) (b : String) :
    (∀ c, (create_s3_bucket s3 b).1 = ProcResult.exit c →
        c = 1 ∧ endsWithPrintErr (create_s3_bucket s3 b).2) ∧
    (∀ m, (create_s3_bucket s3 b).1 ≠ ProcResult.uncaught m) := by
  cases hc : s3.createBucketResult
  case ok =>
    exact ⟨fun c h => by simp [create_s3_bucket, hc] at h,
           fun m h => by simp [create_s3_bucket, hc] at h⟩
  case alreadyOwnedByYou =>
    exact ⟨fun c h => by simp [create_s3_bucket, hc] at h,
           fun m h => by simp [create_s3_bucket, hc] at h⟩
  case err e =>
    refine ⟨fun c h => ?_, fun m h => by simp [create_s3_bucket, hc] at h⟩
    simp only [create_s3_bucket, hc] at h ⊢
    simp at h
    exact ⟨h.symm, endsWithPrintErr_cons _ (endsWithPrintErr_cons _ (endsWithPrintErr_single _))⟩

theorem upload_ova_to_s3_inv (s3 : S3Client) (b p : String) :
    (∀ c, (upload_ova_to_s3 s3 b p).1 = ProcResult.exit c →
        c = 1 ∧ endsWithPrintErr (upload_ova_to_s3 s3 b p).2) ∧
    (∀ m, (upload_ova_to_s3 s3 b p).1 ≠ ProcResult.uncaught m) := by
  cases hc : s3.uploadFileResult
  case ok a =>
    exact ⟨fun c h => by simp [upload_ova_to_s3, hc] at h,
           fun m h => by simp [upload_ova_to_s3, hc] at h⟩
  case err e =>
    refine ⟨fun c h => ?_, fun m h => by simp [upload_ova_to_s3, hc] at h⟩
    simp only [upload_ova_to_s3, hc] at h ⊢
    simp at h
    exact ⟨h.symm, endsWithPrintErr_cons _ (endsWithPrintErr_cons _ (endsWithPrintErr_single _))⟩

theorem import_image_inv (ec2 : EC2Client) (b k d : String) :
    (∀ c, (import_image ec2 b k d).1 = ProcResult.exit c →
        c = 1 ∧ endsWithPrintErr (import_image ec2 b k d).2) ∧
    (∀ m, (import_image ec2 b k d).1 ≠ ProcResult.uncaught m) := by
  cases hc : ec2.importImageResult
  case ok a =>
    exact ⟨fun c h => by simp [import_image, hc] at h,
           fun m h => by simp [import_image, hc] at h⟩
  case err e =>
    refine ⟨fun c h => ?_, fun m h => by simp [import_image, hc] at h⟩
    simp only [import_image, hc] at h ⊢
    simp at h
    exact ⟨h.symm, endsWithPrintErr_cons _ (endsWithPrintErr_cons _ (endsWithPrintErr_single _))⟩

theorem create_iam_role_and_policy_inv (iam : IAMClient) (b : String) :
    (∀ c, (create_iam_role_and_policy iam b).1 = ProcResult.exit c →
        c = 1 ∧ endsWithPrintErr (create_iam_role_and_policy iam b).2) ∧
    (∀ m, (create_iam_role_and_policy iam b).1 = ProcResult.uncaught m →
        iam.getRoleResult = GetRoleOutcome.err m) := by
  cases hg : iam.getRoleResult
  case found =>
    exact ⟨fun c h => by simp [create_iam_role_and_policy, hg] at h,
           fun m h => by simp [create_iam_role_and_policy, hg] at h⟩
  case err e =>
    refine ⟨fun c h => by simp [create_iam_role_and_policy, hg] at h, fun m h => ?_⟩
    simp [create_iam_role_and_policy, hg] at h
    rw [h]
  case noSuchEntity =>
    cases hcr : iam.createRoleResult <;> cases hp : iam.putRolePolicyResult <;>
      cases hw : iam.waitRoleExistsResult
    all_goals refine ⟨fun c h => ?_, fun m h => by
      simp [create_iam_role_and_policy, hg, hcr, hp, hw] at h⟩
    all_goals simp only [create_iam_role_and_policy, hg, hcr, hp, hw] at h ⊢
    all_goals simp at h
    all_goals exact ⟨h.symm,
      endsWithPrintErr_append _ (endsWithPrintErr_cons _ (endsWithPrintErr_single _))⟩

theorem monitorLoop_inv (tid : String) (l : List (ApiResult (List TaskRecord))) :
    (∀ c, (monitorLoop tid l).1 = MonitorResult.done (ProcResult.exit c) →
        c = 1 ∧ endsWithPrintErr (monitorLoop tid l).2) ∧
    (∀ m, (monitorLoop tid l).1 ≠ MonitorResult.done (ProcResult.uncaught m)) ∧
    (∀ t, (monitorLoop tid l).1 = MonitorResult.done (ProcResult.ok t) → t.status.isSome) := by
  induction l with
  | nil =>
    exact ⟨fun c h => by simp [monitorLoop] at h, fun m h => by simp [monitorLoop] at h,
           fun t h => by simp [monitorLoop] at h⟩
  | cons r rest ih =>
    obtain ⟨ih1, ih2, ih3⟩ := ih
    cases r with
    | err e =>
      refine ⟨fun c h => ?_, fun m h => by simp [monitorLoop] at h,
              fun t h => by simp [monitorLoop] at h⟩
      simp only [monitorLoop] at h ⊢
      simp at h
      exact ⟨h.symm, endsWithPrintErr_cons _ (endsWithPrintErr_single _)⟩
    | ok tasks =>
      cases tasks with
      | nil =>
        refine ⟨fun c h => ?_, fun m h => by simp [monitorLoop] at h,
                fun t h => by simp [monitorLoop] at h⟩
        simp only [monitorLoop] at h ⊢
        simp at h
        exact ⟨h.symm, endsWithPrintErr_cons _ (endsWithPrintErr_single _)⟩
      | cons t0 ts =>
        cases hst : t0.status with
        | none =>
          refine ⟨fun c h => ?_, fun m h => by simp [monitorLoop, hst] at h,
                  fun t h => by simp [monitorLoop, hst] at h⟩
          simp only [monitorLoop, hst] at h ⊢
          simp at h
          exact ⟨h.symm, endsWithPrintErr_cons _ (endsWithPrintErr_single _)⟩
        | some st =>
          by_cases hterm : st ∈ terminalStatuses
          · refine ⟨fun c h => by simp [monitorLoop, hst, hterm] at h,
                    fun m h => by simp [monitorLoop, hst, hterm] at h, fun t h => ?_⟩
            simp [monitorLoop, hst, hterm] at h
            rw [← h, hst]
            rfl
          · refine ⟨fun c h => ?_, fun m h => ?_, fun t h => ?_⟩
            · simp only [monitorLoop, hst, hterm, if_false] at h ⊢
              obtain ⟨hc, he⟩ := ih1 c h
              exact ⟨hc, endsWithPrintErr_cons _ (endsWithPrintErr_cons _
                (endsWithPrintErr_cons _ he))⟩
            · simp only [monitorLoop, hst, hterm, if_false] at h
              exact ih2 m h
            · simp only [monitorLoop, hst, hterm, if_false] at h
              exact ih3 t h

theorem finishRun_inv (ec2 : EC2Client) (tid : String) :
    (∀ c, (finishRun ec2 tid).1 = RunResult.finished (ProcResult.exit c) →
        c = 1 ∧ endsWithPrintErr (finishRun ec2 tid).2) ∧
    (∀ m, (finishRun ec2 tid).1 = RunResult.finished (ProcResult.uncaught m) →
        m = "KeyError: \x27ImageId\x27") := by
  obtain ⟨m1, m2, m3⟩ := monitorLoop_inv tid ec2.describeResults
  cases hm : (monitorLoop tid ec2.describeResults).1 with
  | outOfResponses =>
    exact ⟨fun c h => by simp [finishRun, monitor_import_task, hm] at h,
           fun m h => by simp [finishRun, monitor_import_task, hm] at h⟩
  | done pr =>
    cases pr with
    | exit c0 =>
      refine ⟨fun c h => ?_, fun m h => by simp [finishRun, monitor_import_task, hm] at h⟩
      simp only [finishRun, monitor_import_task, hm] at h ⊢
      simp at h
      obtain ⟨hc, he⟩ := m1 c0 hm
      exact ⟨by omega, endsWithPrintErr_cons _ he⟩
    | uncaught e =>
      exact absurd hm (m2 e)
    | ok t =>
      have hsome : t.status.isSome := m3 t hm
      obtain ⟨st, hst⟩ := Option.isSome_iff_exists.mp hsome
      by_cases hcomp : st = "completed"
      · subst hcomp
        cases him : t.imageId with
        | none =>
          refine ⟨fun c h => by simp [finishRun, monitor_import_task, hm, hst, him] at h,
                  fun m h => ?_⟩
          simp [finishRun, monitor_import_task, hm, hst, him] at h
          rw [h]
        | some ami =>
          exact ⟨fun c h => by simp [finishRun, monitor_import_task, hm, hst, him] at h,
                 fun m h => by simp [finishRun, monitor_import_task, hm, hst, him] at h⟩
      · exact ⟨fun c h => by simp [finishRun, monitor_import_task, hm, hst, hcomp] at h,
               fun m h => by simp [finishRun, monitor_import_task, hm, hst, hcomp] at h⟩

theorem rstep_inv {α : Type} (P : String → Prop) (r : ProcResult α × List Event)
    (f : α → RunResult × List Event)
    (hre : ∀ c, r.1 = ProcResult.exit c → c = 1 ∧ endsWithPrintErr r.2)
    (hru : ∀ m, r.1 = ProcResult.uncaught m → P m)
    (hfe : ∀ a c, (f a).1 = RunResult.finished (ProcResult.exit c) →
        c = 1 ∧ endsWithPrintErr (f a).2)
    (hfu : ∀ a m, (f a).1 = RunResult.finished (ProcResult.uncaught m) → P m) :
    (∀ c, (rstep r f).1 = RunResult.finished (ProcResult.exit c) →
        c = 1 ∧ endsWithPrintErr (rstep r f).2) ∧
    (∀ m, (rstep r f).1 = RunResult.finished (ProcResult.uncaught m) → P m) := by
  cases hr : r.1 with
  | ok a =>
    rw [rstep_eq_of_ok hr]
    refine ⟨fun c h => ?_, fun m h => hfu a m h⟩
    obtain ⟨hc, he⟩ := hfe a c h
    exact ⟨hc, endsWithPrintErr_append _ he⟩
  | exit c0 =>
    rw [rstep_eq_of_exit hr]
    refine ⟨fun c h => ?_, fun m h => by simp at h⟩
    have hcc : c0 = c := by simpa using h
    subst hcc
    exact hre c0 hr
  | uncaught m0 =>
    rw [rstep_eq_of_uncaught hr]
    refine ⟨fun c h => by simp at h, fun m h => ?_⟩
    have hmm : m0 = m := by simpa using h
    subst hmm
    exact hru m0 hr

theorem runPipeline_inv (cl : Clients) (bn p d : String) :
    (∀ c, (runPipeline cl bn p d).1 = RunResult.finished (ProcResult.exit c) →
        c = 1 ∧ endsWithPrintErr (runPipeline cl bn p d).2) ∧
    (∀ m, (runPipeline cl bn p d).1 = RunResult.finished (ProcResult.uncaught m) →
        cl.iam.getRoleResult = GetRoleOutcome.err m ∨ m = "KeyError: \x27ImageId\x27") := by
  have h4 := fun (k : String) =>
    rstep_inv (fun m => cl.iam.getRoleResult = GetRoleOutcome.err m ∨
        m = "KeyError: \x27ImageId\x27")
      (import_image cl.ec2 bn k d) (fun tid => finishRun cl.ec2 tid)
      (fun c h => (import_image_inv cl.ec2 bn k d).1 c h)
      (fun m h => absurd h ((import_image_inv cl.ec2 bn k d).2 m))
      (fun tid c h => (finishRun_inv cl.ec2 tid).1 c h)
      (fun tid m h => Or.inr ((finishRun_inv cl.ec2 tid).2 m h))
  have h3 :=
    rstep_inv (fun m => cl.iam.getRoleResult = GetRoleOutcome.err m ∨
        m = "KeyError: \x27ImageId\x27")
      (upload_ova_to_s3 cl.s3 bn p)
      (fun k => rstep (import_image cl.ec2 bn k d) (fun tid => finishRun cl.ec2 tid))
      (fun c h => (upload_ova_to_s3_inv cl.s3 bn p).1 c h)
      (fun m h => absurd h ((upload_ova_to_s3_inv cl.s3 bn p).2 m))
      (fun k c h => (h4 k).1 c h)
      (fun k m h => (h4 k).2 m h)
  have h2 :=
    rstep_inv (fun m => cl.iam.getRoleResult = GetRoleOutcome.err m ∨
        m = "KeyError: \x27ImageId\x27")
      (create_iam_role_and_policy cl.iam bn)
      (fun _ => rstep (upload_ova_to_s3 cl.s3 bn p)
        (fun k => rstep (import_image cl.ec2 bn k d) (fun tid => finishRun cl.ec2 tid)))
      (fun c h => (create_iam_role_and_policy_inv cl.iam bn).1 c h)
      (fun m h => Or.inl ((create_iam_role_and_policy_inv cl.iam bn).2 m h))
      (fun a c h => h3.1 c h)
      (fun a m h => h3.2 m h)
  have h1 :=
    rstep_inv (fun m => cl.iam.getRoleResult = GetRoleOutcome.err m ∨
        m = "KeyError: \x27ImageId\x27")
      (create_s3_bucket cl.s3 bn)
      (fun _ => rstep (create_iam_role_and_policy cl.iam bn)
        (fun _ => rstep (upload_ova_to_s3 cl.s3 bn p)
          (fun k => rstep (import_image cl.ec2 bn k d) (fun tid => finishRun cl.ec2 tid))))
      (fun c h => (create_s3_bucket_inv cl.s3 bn).1 c h)
      (fun m h => absurd h ((create_s3_bucket_inv cl.s3 bn).2 m))
      (fun a c h => h2.1 c h)
      (fun a m h => h2.2 m h)
  exact h1

theorem main_inv (env : Env) (p : String) :
    (∀ c, (main env p).1 = RunResult.finished (ProcResult.exit c) →
        c = 1 ∧ endsWithPrintErr (main env p).2) ∧
    (∀ m, (main env p).1 = RunResult.finished (ProcResult.uncaught m) →
        (∃ cl, env.clientInit = ApiResult.ok cl ∧ cl.iam.getRoleResult = GetRoleOutcome.err m) ∨
        m = "KeyError: \x27ImageId\x27") := by
  by_cases hfs : env.fs p
  · cases hci : env.clientInit with
    | err e =>
      refine ⟨fun c h => ?_, fun m h => by simp [main, hfs, hci] at h⟩
      simp only [main, hfs, if_true, hci] at h ⊢
      simp at h
      exact ⟨h.symm, endsWithPrintErr_cons _ (endsWithPrintErr_single _)⟩
    | ok cl =>
      obtain ⟨g1, g2⟩ := runPipeline_inv cl
        ("ova-ami-import-" ++ toString env.timestamp ++ "-" ++ env.uuidStr.take 8) p
        ("AMI created from " ++ basename p)
      have hm1 : (main env p).1 =
          (runPipeline cl
            ("ova-ami-import-" ++ toString env.timestamp ++ "-" ++ env.uuidStr.take 8) p
            ("AMI created from " ++ basename p)).1 := by
        simp only [main, hfs, if_true, hci]
      have hm2 : (main env p).2 =
          Event.printOut "Starting OVA to AMI conversion script..." ::
          (runPipeline cl
            ("ova-ami-import-" ++ toString env.timestamp ++ "-" ++ env.uuidStr.take 8) p
            ("AMI created from " ++ basename p)).2 := by
        simp only [main, hfs, if_true, hci]
      refine ⟨fun c h => ?_, fun m h => ?_⟩
      · rw [hm1] at h
        obtain ⟨hc, he⟩ := g1 c h
        rw [hm2]
        exact ⟨hc, endsWithPrintErr_cons _ he⟩
      · rw [hm1] at h
        rcases g2 m h with h2 | h2
        · exact Or.inl ⟨cl, rfl, h2⟩
        · exact Or.inr h2
  · have hfs' : env.fs p = false := by simpa using hfs
    refine ⟨fun c h => ?_, fun m h => by simp [main, hfs'] at h⟩
    simp only [main, hfs'] at h ⊢
    simp at h ⊢
    exact ⟨h.symm, endsWithPrintErr_cons _ (endsWithPrintErr_single _)⟩

/-- Claim C5: when a status query inside the monitor loop raises an error,
the loop prints a diagnostic to the error stream and exits with code 1 right
there: exactly one more query is made, no sleep follows it, and the
responses scripted afterwards are never consumed. -/
theorem monitor_query_error_fatal (tid : String)
    (pre tail : List (ApiResult (List TaskRecord))) (m : String)
    (hpre : ∀ r ∈ pre, respNonTerminal r = true) :
    (monitorLoop tid (pre ++ ApiResult.err m :: tail)).1 =
      MonitorResult.done (ProcResult.exit 1) ∧
    Event.printErr ("Error monitoring import task: " ++ m) ∈
      (monitorLoop tid (pre ++ ApiResult.err m :: tail)).2 ∧
    monitorLoop tid (pre ++ ApiResult.err m :: tail) =
      monitorLoop tid (pre ++ [ApiResult.err m]) ∧
    describeCount (monitorLoop tid (pre ++ ApiResult.err m :: tail)).2 = pre.length + 1 ∧
    sleepCount (monitorLoop tid (pre ++ ApiResult.err m :: tail)).2 = pre.length := by
  induction pre with
  | nil =>
    refine ⟨by simp [monitorLoop], by simp [monitorLoop], by simp [monitorLoop], ?_, ?_⟩
    · simp [monitorLoop, describeCount]
    · simp [monitorLoop, sleepCount]
  | cons r rest ih =>
    have hr : respNonTerminal r = true := hpre r (by simp)
    have hrest : ∀ x ∈ rest, respNonTerminal x = true := fun x hx => hpre x (by simp [hx])
    obtain ⟨ih1, ih2, ih3, ih4, ih5⟩ := ih hrest
    have h1 := monitorLoop_cons_nonterm tid r (rest ++ ApiResult.err m :: tail) hr
    have h2 := monitorLoop_cons_nonterm tid r (rest ++ [ApiResult.err m]) hr
    rw [List.cons_append, h1]
    refine ⟨ih1, by simp [ih2], by rw [List.cons_append, h2, ih3], ?_, ?_⟩
    · simp [describeCount, List.countP_cons] at ih4 ⊢
      omega
    · simp [sleepCount, List.countP_cons] at ih5 ⊢
      omega

/-- Witness for C5: one non-terminal response, then a throttling error, then
an ignored trailing response. -/
theorem monitor_query_error_fatal_w :
    (monitorLoop "t2"
      ([ApiResult.ok [{ status := some "active", statusMessage := none, imageId := none }]] ++
        ApiResult.err "Throttling" ::
          [ApiResult.ok [{ status := some "completed", statusMessage := none,
                           imageId := some "ami-2" }]])).1 =
      MonitorResult.done (ProcResult.exit 1) ∧
    Event.printErr ("Error monitoring import task: " ++ "Throttling") ∈
      (monitorLoop "t2"
        ([ApiResult.ok [{ status := some "active", statusMessage := none, imageId := none }]] ++
          ApiResult.err "Throttling" ::
            [ApiResult.ok [{ status := some "completed", statusMessage := none,
                             imageId := some "ami-2" }]])).2 ∧
    monitorLoop "t2"
      ([ApiResult.ok [{ status := some "active", statusMessage := none, imageId := none }]] ++
        ApiResult.err "Throttling" ::
          [ApiResult.ok [{ status := some "completed", statusMessage := none,
                           imageId := some "ami-2" }]]) =
      monitorLoop "t2"
        ([ApiResult.ok [{ status := some "active", statusMessage := none, imageId := none }]] ++
          [ApiResult.err "Throttling"]) ∧
    describeCount (monitorLoop "t2"
      ([ApiResult.ok [{ status := some "active", statusMessage := none, imageId := none }]] ++
        ApiResult.err "Throttling" ::
          [ApiResult.ok [{ status := some "completed", statusMessage := none,
                           imageId := some "ami-2" }]])).2 =
      [ApiResult.ok (α := List TaskRecord)
        [{ status := some "active", statusMessage := none, imageId := none }]].length + 1 ∧
    sleepCount (monitorLoop "t2"
      ([ApiResult.ok [{ status := some "active", statusMessage := none, imageId := none }]] ++
        ApiResult.err "Throttling" ::
          [ApiResult.ok [{ status := some "completed", statusMessage := none,
                           imageId := some "ami-2" }]])).2 =
      [ApiResult.ok (α := List TaskRecord)
        [{ status := some "active", statusMessage := none, imageId := none }]].length :=
  monitor_query_error_fatal "t2"
    [ApiResult.ok [{ status := some "active", statusMessage := none, imageId := none }]]
    [ApiResult.ok [{ status := some "completed", statusMessage := none, imageId := some "ami-2" }]]
    "Throttling" (by decide)

theorem main_happy (env : Env) (p : String) (cl : Clients) (tid : String)
    (h : happyUntilMonitor env p cl tid) :
    (main env p).1 = (finishRun cl.ec2 tid).1 ∧
    ∃ pre, (main env p).2 = pre ++ (finishRun cl.ec2 tid).2 := by
  obtain ⟨hfs, hci, hbu, hrole, hupl, himp⟩ := h
  set bn := "ova-ami-import-" ++ toString env.timestamp ++ "-" ++ env.uuidStr.take 8 with hbn
  have e1 : (create_s3_bucket cl.s3 bn).1 = ProcResult.ok () := by
    simp [create_s3_bucket, hbu]
  have e2 : (create_iam_role_and_policy cl.iam bn).1 = ProcResult.ok () := by
    simp [create_iam_role_and_policy, hrole]
  have e3 : (upload_ova_to_s3 cl.s3 bn p).1 = ProcResult.ok (basename p) := by
    simp [upload_ova_to_s3, hupl]
  have e4 : (import_image cl.ec2 bn (basename p) ("AMI created from " ++ basename p)).1 =
      ProcResult.ok tid := by
    simp [import_image, himp]
  constructor
  · simp only [main, hfs, if_true, hci, runPipeline, ← hbn,
      rstep_eq_of_ok e1, rstep_eq_of_ok e2, rstep_eq_of_ok e3, rstep_eq_of_ok e4]
  · refine ⟨Event.printOut "Starting OVA to AMI conversion script..." ::
      ((create_s3_bucket cl.s3 bn).2 ++ ((create_iam_role_and_policy cl.iam bn).2 ++
        ((upload_ova_to_s3 cl.s3 bn p).2 ++
          (import_image cl.ec2 bn (basename p) ("AMI created from " ++ basename p)).2))), ?_⟩
    simp only [main, hfs, if_true, hci, runPipeline, ← hbn,
      rstep_eq_of_ok e1, rstep_eq_of_ok e2, rstep_eq_of_ok e3, rstep_eq_of_ok e4]
    simp [List.append_assoc]

/-- Claim C1 counterexample: with every stage succeeding and the backend
reporting the task `cancelled` with message `User cancelled`, the run prints
the status and the message but the process exit code is 0, not non-zero. -/
theorem cancelled_run_exit_code_zero :
    runExitCode (main cancelledEnv "vm.ova").1 = some 0 ∧
    Event.printOut ("Final Status: " ++ "cancelled") ∈ (main cancelledEnv "vm.ova").2 ∧
    Event.printOut ("Status Message: " ++ "User cancelled") ∈ (main cancelledEnv "vm.ova").2 := by
  decide

/-- Claim C1 as amended: every path that terminates via an explicit exit
uses code 1 (non-zero), but an import task that ends in a terminal state
other than `completed` makes the run print the status and message and finish
normally, so the process exits with code 0. -/
theorem exit_codes_of_run :
    (∀ (env : Env) (p : String) (c : Nat),
        (main env p).1 = RunResult.finished (ProcResult.exit c) → c = 1) ∧
    (∀ (env : Env) (p : String) (cl : Clients) (tid : String) (t : TaskRecord)
        (ts : List TaskRecord) (st msg : String),
        happyUntilMonitor env p cl tid →
        cl.ec2.describeResults = [ApiResult.ok (t :: ts)] →
        t.status = some st → st ∈ terminalStatuses → st ≠ "completed" →
        t.statusMessage = some msg →
        (main env p).1 = RunResult.finished (ProcResult.ok ()) ∧
        runExitCode (main env p).1 = some 0 ∧
        Event.printOut ("Final Status: " ++ st) ∈ (main env p).2 ∧
        Event.printOut ("Status Message: " ++ msg) ∈ (main env p).2) := by
  constructor
  · intro env p c h
    exact ((main_inv env p).1 c h).1
  · intro env p cl tid t ts st msg h hd hst hterm hne hmsg
    obtain ⟨hm1, pre, hm2⟩ := main_happy env p cl tid h
    have hloop : monitorLoop tid cl.ec2.describeResults =
        (MonitorResult.done (ProcResult.ok t),
         [Event.call (CloudCall.describeImportImageTasks tid),
          Event.printOut ("Current status: " ++ st ++ " - " ++ msg)]) := by
      simp [hd, monitorLoop, hst, hmsg, hterm]
    have hfin : finishRun cl.ec2 tid =
        (RunResult.finished (ProcResult.ok ()),
         [Event.printOut "Monitoring import task status...",
          Event.call (CloudCall.describeImportImageTasks tid),
          Event.printOut ("Current status: " ++ st ++ " - " ++ msg),
          Event.printOut "\n--- Conversion Failed ---",
          Event.printOut "The import task did not complete successfully.",
          Event.printOut ("Final Status: " ++ st),
          Event.printOut ("Status Message: " ++ msg)]) := by
      simp [finishRun, monitor_import_task, hloop, hst, hne, hmsg]
    refine ⟨by rw [hm1, hfin], by rw [hm1, hfin]; rfl, ?_, ?_⟩
    · rw [hm2, hfin]
      simp
    · rw [hm2, hfin]
      simp

/-- Witness for the amended C1: a failing run (missing file) exits with
code 1, and the concrete cancelled run of the counterexample environment
finishes normally with exit code 0 after printing status and message. -/
theorem exit_codes_of_run_w :
    (1 = 1) ∧
    ((main cancelledEnv "vm.ova").1 = RunResult.finished (ProcResult.ok ()) ∧
     runExitCode (main cancelledEnv "vm.ova").1 = some 0 ∧
     Event.printOut ("Final Status: " ++ "cancelled") ∈ (main cancelledEnv "vm.ova").2 ∧
     Event.printOut ("Status Message: " ++ "User cancelled") ∈ (main cancelledEnv "vm.ova").2) :=
  ⟨exit_codes_of_run.1 noFileEnv "vm.ova" 1 (by decide),
   exit_codes_of_run.2 cancelledEnv "vm.ova"
     ⟨happyIAM,
      happyEC2 [ApiResult.ok [{ status := some "cancelled",
                                statusMessage := some "User cancelled", imageId := none }]],
      happyS3⟩
     "import-ami-0a1b2c3d"
     { status := some "cancelled", statusMessage := some "User cancelled", imageId := none }
     [] "cancelled" "User cancelled" ⟨rfl, rfl, rfl, rfl, rfl, rfl⟩ rfl rfl (by decide)
     (by decide) rfl⟩

/-- Claim C2 counterexample: a role-existence check failing with
`AccessDenied` is not handled anywhere: the run ends with that exception
propagating uncaught and no diagnostic is ever printed to the error
stream. -/
theorem get_role_error_uncaught :
    (main getRoleErrEnv "vm.ova").1 = RunResult.finished (ProcResult.uncaught "AccessDenied") ∧
    ∀ e ∈ (main getRoleErrEnv "vm.ova").2, isPrintErr e = false := by
  decide

/-- Claim C2 as amended: every failure that terminates the process via an
explicit exit does so with code 1 right after printing a diagnostic to the
error stream (the diagnostic is the last event); the only failures that
escape uncaught instead are a role-existence-check error other than
role-absence, and the image-id lookup on a completed task record lacking
one. -/
theorem failure_handling_characterization :
    (∀ (env : Env) (p : String) (c : Nat),
        (main env p).1 = RunResult.finished (ProcResult.exit c) →
        c = 1 ∧ endsWithPrintErr (main env p).2) ∧
    (∀ (env : Env) (p : String) (m : String),
        (main env p).1 = RunResult.finished (ProcResult.uncaught m) →
        (∃ cl, env.clientInit = ApiResult.ok cl ∧ cl.iam.getRoleResult = GetRoleOutcome.err m) ∨
        m = "KeyError: \x27ImageId\x27") :=
  ⟨fun env p => (main_inv env p).1, fun env p => (main_inv env p).2⟩

/-- Witness for the amended C2: the missing-file run exits 1 with a final
stderr diagnostic, and the access-denied run is characterized as the
role-existence-check uncaught case. -/
theorem failure_handling_characterization_w :
    (1 = 1 ∧ endsWithPrintErr (main noFileEnv "vm.ova").2) ∧
    ((∃ cl, getRoleErrEnv.clientInit = ApiResult.ok cl ∧
        cl.iam.getRoleResult = GetRoleOutcome.err "AccessDenied") ∨
     "AccessDenied" = "KeyError: \x27ImageId\x27") :=
  ⟨failure_handling_characterization.1 noFileEnv "vm.ova" 1 (by decide),
   failure_handling_characterization.2 getRoleErrEnv "vm.ova" "AccessDenied" (by decide)⟩

/-- Claim C10: when every stage succeeds and the monitor returns a
`completed` task record with no `ImageId` field, `main` ends with an
uncaught key-lookup error; nothing is printed after the final monitor
status line, so neither the success report nor a diagnostic-and-exit
happens. -/
theorem completed_without_image_id_uncaught (env : Env) (p : String) (cl : Clients)
    (tid : String) (t : TaskRecord) (ts : List TaskRecord)
    (h : happyUntilMonitor env p cl tid)
    (hd : cl.ec2.describeResults = [ApiResult.ok (t :: ts)])
    (hst : t.status = some "completed") (him : t.imageId = none) :
    (main env p).1 = RunResult.finished (ProcResult.uncaught "KeyError: \x27ImageId\x27") ∧
    (main env p).2.getLast? =
      some (Event.printOut
        ("Current status: completed - " ++ t.statusMessage.getD "No message")) := by
  obtain ⟨hm1, pre, hm2⟩ := main_happy env p cl tid h
  have hloop : monitorLoop tid cl.ec2.describeResults =
      (MonitorResult.done (ProcResult.ok t),
       [Event.call (CloudCall.describeImportImageTasks tid),
        Event.printOut ("Current status: completed - " ++ t.statusMessage.getD "No message")]) := by
    simp [hd, monitorLoop, hst, terminalStatuses]
  have hfin : finishRun cl.ec2 tid =
      (RunResult.finished (ProcResult.uncaught "KeyError: \x27ImageId\x27"),
       [Event.printOut "Monitoring import task status...",
        Event.call (CloudCall.describeImportImageTasks tid),
        Event.printOut ("Current status: completed - " ++ t.statusMessage.getD "No message")]) := by
    simp [finishRun, monitor_import_task, hloop, hst, him]
  refine ⟨by rw [hm1, hfin], ?_⟩
  rw [hm2, hfin]
  rw [List.getLast?_append_of_ne_nil _ (by simp)]
  rfl

/-- Witness for C10 at a concrete environment whose single status response
is `completed` without an image id. -/
theorem completed_without_image_id_uncaught_w :
    (main completedNoImageEnv "vm.ova").1 =
      RunResult.finished (ProcResult.uncaught "KeyError: \x27ImageId\x27") ∧
    (main completedNoImageEnv "vm.ova").2.getLast? =
      some (Event.printOut ("Current status: completed - " ++ "No message")) :=
  completed_without_image_id_uncaught completedNoImageEnv "vm.ova"
    ⟨happyIAM,
     happyEC2 [ApiResult.ok [{ status := some "completed", statusMessage := none,
                               imageId := none }]],
     happyS3⟩
    "import-ami-0a1b2c3d"
    { status := some "completed", statusMessage := none, imageId := none } []
    ⟨rfl, rfl, rfl, rfl, rfl, rfl⟩ rfl rfl rfl

end OvaToAmi
